import Mathlib

/-!
Shallow embedding of the Training Portal backend (server-backup.js and the
AI-enhanced server source). The relational tables are modelled as lists of
records, the request handlers as pure functions from a database state and a
request to a response outcome paired with the successor state, and the SQL
aggregate queries as list folds. SQLite REAL values are modelled as rationals.
-/

namespace TrainingPortal

/-- Row of the users table. Only the columns the verified handlers read are
kept; id is the primary key, role is one of student, teacher, admin. -/
structure User where
  id : Nat
  username : String
  role : String
deriving DecidableEq, Repr

/-- Row of the batches table. -/
structure Batch where
  id : Nat
  name : String
  instructorId : Nat
  duration : String
  startDate : String
  status : String
  maxParticipants : Nat
deriving DecidableEq, Repr

/-- Row of the enrollments table; UNIQUE(user_id, batch_id) is enforced by the
enroll handler model below exactly where SQLite would raise it. -/
structure Enrollment where
  id : Nat
  userId : Nat
  batchId : Nat
deriving DecidableEq, Repr

/-- Row of the daily_reports table. hours_worked is REAL, modelled as a
rational; challenges and notes are nullable columns. -/
structure Report where
  id : Nat
  userId : Nat
  batchId : Nat
  reportDate : String
  tasksCompleted : String
  challenges : Option String
  hoursWorked : ℚ
  notes : Option String
  createdAt : Nat
  updatedAt : Nat
deriving DecidableEq, Repr

/-- Database state: the four tables plus the AUTOINCREMENT counters for the
two tables the verified handlers insert into. -/
structure DB where
  users : List User
  batches : List Batch
  enrollments : List Enrollment
  reports : List Report
  nextEnrollmentId : Nat
  nextReportId : Nat
deriving DecidableEq, Repr

/-- SELECT * FROM batches WHERE id = ? (ids are unique, first match). -/
def findBatch (db : DB) (batchId : Nat) : Option Batch :=
  db.batches.find? (fun b => b.id == batchId)

/-- SELECT COUNT(*) FROM enrollments WHERE batch_id = ?. -/
def enrollmentCount (db : DB) (batchId : Nat) : Nat :=
  (db.enrollments.filter (fun e => e.batchId == batchId)).length

/-- Whether an enrollments row exists for the pair; this is both the handler
existence check (SELECT * FROM enrollments WHERE user_id = ? AND batch_id = ?)
and the condition under which the UNIQUE(user_id, batch_id) insert fails. -/
def hasEnrollment (db : DB) (userId batchId : Nat) : Bool :=
  db.enrollments.any (fun e => e.userId == userId && e.batchId == batchId)

/-- Response outcomes of a handler: an error JSON body with an HTTP status, a
success JSON body, or an uncaught exception thrown inside a storage callback
(no response is ever sent in that case). -/
inductive HandlerOutcome where
  | jsonError (status : Nat) (msg : String)
  | jsonOk (msg : String)
  | crash
deriving DecidableEq, Repr

/-- Fault injection for the three storage calls of the enroll handler. -/
structure EnrollFaults where
  batchQueryFails : Bool
  countQueryFails : Bool
  insertFails : Bool
deriving DecidableEq, Repr

def noEnrollFaults : EnrollFaults := ⟨false, false, false⟩

/-- POST /api/batches/:batchId/enroll. Mirrors the source control flow:
the batch query error and the missing batch are conflated into 404; the
count query callback never checks its error, so on a count query failure the
source dereferences the absent result row and throws (modelled as crash);
a full batch is 400; the insert raises UNIQUE exactly when the pair already
exists, which the source maps to 400, and any other insert failure to 500. -/
def enrollHandler (db : DB) (f : EnrollFaults) (userId batchId : Nat) :
    HandlerOutcome × DB :=
  if f.batchQueryFails = true then (.jsonError 404 "Batch not found", db)
  else
    match findBatch db batchId with
    | none => (.jsonError 404 "Batch not found", db)
    | some batch =>
      if f.countQueryFails = true then (.crash, db)
      else if batch.maxParticipants ≤ enrollmentCount db batchId then
        (.jsonError 400 "Batch is full", db)
      else if hasEnrollment db userId batchId = true then
        (.jsonError 400 "Already enrolled", db)
      else if f.insertFails = true then
        (.jsonError 500 "Enrollment failed", db)
      else
        (.jsonOk "Enrolled successfully",
          { db with
              enrollments :=
                db.enrollments ++ [⟨db.nextEnrollmentId, userId, batchId⟩],
              nextEnrollmentId := db.nextEnrollmentId + 1 })

/-- Body of POST /api/reports; absent JSON fields are none. -/
structure ReportRequest where
  batch_id : Option Nat
  report_date : Option String
  tasks_completed : Option String
  challenges : Option String
  hours_worked : Option ℚ
  notes : Option String
deriving DecidableEq, Repr

/-- JavaScript truthiness of an optional number: undefined and 0 are falsy. -/
def truthyNat : Option Nat → Bool
  | none => false
  | some n => n != 0

/-- JavaScript truthiness of an optional string: undefined and "" are falsy. -/
def truthyStr : Option String → Bool
  | none => false
  | some s => s != ""

/-- JavaScript truthiness of an optional rational: undefined and 0 are falsy. -/
def truthyRat : Option ℚ → Bool
  | none => false
  | some q => q != 0

/-- The source guard if (!batch_id || !report_date || !tasks_completed ||
!hours_worked). -/
def validReportRequest (req : ReportRequest) : Bool :=
  truthyNat req.batch_id && truthyStr req.report_date &&
    truthyStr req.tasks_completed && truthyRat req.hours_worked

/-- Predicate matching a daily_reports row against the upsert key. -/
def keyMatch (u b : Nat) (d : String) (r : Report) : Bool :=
  r.userId == u && r.batchId == b && r.reportDate == d

/-- The ON CONFLICT DO UPDATE field rewrite: tasks, challenges, hours and
notes are overwritten, updated_at is refreshed, id and created_at stay. -/
def applyUpdate (tasks : String) (challenges : Option String) (hours : ℚ)
    (notes : Option String) (t : Nat) (r : Report) : Report :=
  { r with tasksCompleted := tasks, challenges := challenges,
           hoursWorked := hours, notes := notes, updatedAt := t }

/-- INSERT INTO daily_reports ... ON CONFLICT(user_id, batch_id, report_date)
DO UPDATE SET: insert a fresh row when no row carries the key, otherwise
rewrite the conflicting row in place. -/
def upsertReport (db : DB) (u b : Nat) (d tasks : String)
    (challenges : Option String) (hours : ℚ) (notes : Option String)
    (t : Nat) : DB :=
  if db.reports.any (keyMatch u b d) then
    { db with
        reports := db.reports.map
          (fun r => if keyMatch u b d r then
              applyUpdate tasks challenges hours notes t r
            else r) }
  else
    { db with
        reports := db.reports ++
          [⟨db.nextReportId, u, b, d, tasks, challenges, hours, notes, t, t⟩],
        nextReportId := db.nextReportId + 1 }

/-- Fault injection for the two storage calls of the report handler. -/
structure ReportFaults where
  enrollmentQueryFails : Bool
  upsertFails : Bool
deriving DecidableEq, Repr

def noReportFaults : ReportFaults := ⟨false, false⟩

/-- POST /api/reports. Field validation runs first; the enrollment query
error and the missing enrollment are conflated into 403 by the source
(if err or not enrollment); an upsert failure is 500. -/
def reportHandler (db : DB) (f : ReportFaults) (userId : Nat)
    (req : ReportRequest) (now : Nat) : HandlerOutcome × DB :=
  if validReportRequest req = true then
    if f.enrollmentQueryFails = true ∨
        hasEnrollment db userId (req.batch_id.getD 0) = false then
      (.jsonError 403 "Not enrolled in this batch", db)
    else if f.upsertFails = true then
      (.jsonError 500 "Failed to submit report", db)
    else
      (.jsonOk "Report submitted successfully",
        upsertReport db userId (req.batch_id.getD 0) (req.report_date.getD "")
          (req.tasks_completed.getD "") req.challenges
          (req.hours_worked.getD 0) req.notes now)
  else (.jsonError 400 "Required fields missing", db)

/-- The authenticated principal decoded from the bearer token (req.user). -/
structure Caller where
  id : Nat
  role : String
deriving DecidableEq, Repr

/-- Query string of GET /api/reports; absent or empty parameters are none. -/
structure ReportQuery where
  batch_id : Option Nat
  user_id : Option Nat
  start_date : Option String
  end_date : Option String
  limit : Nat
deriving DecidableEq, Repr

/-- A filter clause that is appended only when the parameter is present. -/
def optFilter {α : Type} (o : Option α) (p : α → Bool) : Bool :=
  match o with
  | none => true
  | some x => p x

/-- WHERE clause of GET /api/reports: a student caller gets the forced
r.user_id = caller clause; the user_id parameter is honoured only for a
non-student caller; dates compare as ISO strings, as SQLite compares the
DATE column stored as text. -/
def matchesQuery (caller : Caller) (q : ReportQuery) (r : Report) : Bool :=
  (caller.role != "student" || r.userId == caller.id) &&
    optFilter q.batch_id (fun b => r.batchId == b) &&
    (if caller.role != "student" then
        optFilter q.user_id (fun u => r.userId == u)
      else true) &&
    optFilter q.start_date (fun s => decide (s ≤ r.reportDate)) &&
    optFilter q.end_date (fun e => decide (r.reportDate ≤ e))

/-- The INNER JOINs with users and batches: a report row joins iff its user
and batch references resolve. -/
def visibleReport (db : DB) (r : Report) : Bool :=
  db.users.any (fun u => u.id == r.userId) &&
    db.batches.any (fun b => b.id == r.batchId)

/-- ORDER BY report_date DESC, created_at DESC as a total order on rows. -/
def reportBefore (a b : Report) : Bool :=
  decide (b.reportDate < a.reportDate) ||
    (a.reportDate == b.reportDate && decide (b.createdAt ≤ a.createdAt))

def insertSorted (r : Report) : List Report → List Report
  | [] => [r]
  | x :: xs => if reportBefore r x then r :: x :: xs else x :: insertSorted r xs

def sortReports : List Report → List Report
  | [] => []
  | x :: xs => insertSorted x (sortReports xs)

/-- GET /api/reports: join, filter, order, LIMIT. -/
def queryReports (db : DB) (caller : Caller) (q : ReportQuery) : List Report :=
  (sortReports (db.reports.filter
      (fun r => visibleReport db r && matchesQuery caller q r))).take q.limit

/-- SELECT ... FROM daily_reports WHERE user_id = ? AND batch_id = ?. -/
def reportsIn (db : DB) (u b : Nat) : List Report :=
  db.reports.filter (fun r => r.userId == u && r.batchId == b)

/-- AVG(hours_worked) over the rows of reportsIn; SQL AVG of an empty set is
NULL, modelled as none. -/
def avgHoursIn (db : DB) (u b : Nat) : Option ℚ :=
  let rs := reportsIn db u b
  if rs.length = 0 then none
  else some (((rs.map Report.hoursWorked).sum) / (rs.length : ℚ))

/-- JavaScript comparison null >= c evaluates to false for positive c (null
coerces to 0); a present value compares numerically. -/
def nullGe (x : Option ℚ) (c : ℚ) : Bool :=
  match x with
  | none => false
  | some a => decide (c ≤ a)

/-- Threshold body of predictCompletionRate, applied to the aggregate row
(reports_count, avg_hours) exactly as the source if-else chain reads it. -/
def predictCompletionRate (reportsCount : Nat) (avgHours : Option ℚ) : Nat :=
  if 15 ≤ reportsCount ∧ nullGe avgHours 6 = true then 95
  else if 10 ≤ reportsCount ∧ nullGe avgHours 5 = true then 80
  else if 5 ≤ reportsCount ∧ nullGe avgHours 4 = true then 60
  else if 0 < reportsCount then 40
  else 20

/-- predictCompletionRate wired to the aggregate query over the database. -/
def predictCompletion (db : DB) (u b : Nat) : Nat :=
  predictCompletionRate (reportsIn db u b).length (avgHoursIn db u b)

/-- Engagement tier of the class-insights mapping: High at 15 or more
reports, Medium at 10 or more, Low otherwise. -/
def engagementLevel (totalReports : Nat) : String :=
  if 15 ≤ totalReports then "High"
  else if 10 ≤ totalReports then "Medium"
  else "Low"

/-- The needsAttention flag: report count below 5. -/
def needsAttentionFlag (totalReports : Nat) : Bool :=
  decide (totalReports < 5)

/-- One element of the class-insights response. -/
structure StudentInsight where
  studentId : Nat
  totalReports : Nat
  engagementLevel : String
  needsAttention : Bool
deriving DecidableEq, Repr

/-- GET /api/ai/class-insights/:batchId: users INNER JOIN enrollments on the
batch, LEFT JOIN daily_reports of that user in that batch, COUNT(r.id) per
user, then the engagement tier and attention flag per student. -/
def classInsights (db : DB) (batchId : Nat) : List StudentInsight :=
  (db.users.filter (fun u =>
      db.enrollments.any (fun e => e.userId == u.id && e.batchId == batchId))).map
    (fun u =>
      let cnt := (db.reports.filter
        (fun r => r.userId == u.id && r.batchId == batchId)).length
      { studentId := u.id, totalReports := cnt,
        engagementLevel := engagementLevel cnt,
        needsAttention := needsAttentionFlag cnt })

/-- calculateConsistency from the source: dates are day indices (the source
subtracts two Date values parsed from ISO date strings and divides by the
milliseconds of a day, which is exact for DATE columns, so the floor is the
plain day difference); toFixed(0) on a non-negative value rounds half up,
modelled as the floor of x + 1/2. -/
def calculateConsistency (totalReports : Nat)
    (firstReport lastReport : Option Nat) : ℤ :=
  match firstReport, lastReport with
  | some f, some l =>
    let daysDiff : ℤ := (l : ℤ) - (f : ℤ) + 1
    let consistency : ℚ := (totalReports : ℚ) / (daysDiff : ℚ) * 100
    ⌊min consistency 100 + 1 / 2⌋
  | _, _ => 0

/-- Modelled from the spec wording: the inclusive number of calendar days
from the first to the last report date. -/
def specDaysSpan (f l : Nat) : Nat := l - f + 1

/-- Modelled from the spec wording: consistency = min(total_reports /
days_span * 100, 100). -/
def specConsistency (total f l : Nat) : ℚ :=
  min ((total : ℚ) / (specDaysSpan f l : ℚ) * 100) 100

/-! Concrete fixtures used by witnesses and counterexamples. -/

def batchOne : Batch := ⟨1, "Web Dev", 1, "8 weeks", "2026-01-15", "active", 30⟩

/-- A tiny batch with capacity 1, for the capacity boundary. -/
def batchTiny : Batch := ⟨2, "Tiny", 1, "1 week", "2026-02-01", "active", 1⟩

def dbWithBatch : DB := ⟨[], [batchOne, batchTiny], [], [], 1, 1⟩

def dbEnrolled : DB :=
  ⟨[⟨1, "alice", "student"⟩], [batchOne], [⟨1, 1, 1⟩], [], 2, 1⟩

def reqA : ReportRequest :=
  ⟨some 1, some "2026-01-05", some "taskA", some "hard", some 5, some "n1"⟩

def reqB : ReportRequest :=
  ⟨some 1, some "2026-01-05", some "taskB", none, some 7, none⟩

def reqNegHours : ReportRequest :=
  ⟨some 1, some "2026-01-06", some "work", none, some (-5), none⟩

def reqMissingTasks : ReportRequest :=
  ⟨some 1, some "2026-01-06", none, none, some 5, none⟩

def reqZeroHours : ReportRequest :=
  ⟨some 1, some "2026-01-06", some "work", none, some 0, none⟩

/-! Helper lemmas. -/

theorem keyMatch_iff {u b : Nat} {d : String} {r : Report} :
    keyMatch u b d r = true ↔ r.userId = u ∧ r.batchId = b ∧ r.reportDate = d := by
  simp [keyMatch, Bool.and_eq_true, and_assoc]

theorem keyMatch_applyUpdate (tasks : String)
    (challenges : Option String) (hours : ℚ) (notes : Option String)
    (t : Nat) (u' b' : Nat) (d' : String) (r : Report) :
    keyMatch u' b' d' (applyUpdate tasks challenges hours notes t r) =
      keyMatch u' b' d' r := by
  simp [keyMatch, applyUpdate]

theorem filter_map_comm {α : Type} (g : α → α) (p : α → Bool) (l : List α) :
    (l.map g).filter p = (l.filter (fun r => p (g r))).map g := by
  induction l with
  | nil => rfl
  | cons x xs ih =>
    by_cases h : p (g x) = true <;> simp [h, ih]

/-- C1: Enroll applies its checks in order: a missing batch fails with 404
NotFound; otherwise a current enrollment count at or above max_participants
fails with 400 BatchFull; otherwise an existing (user, batch) enrollment
fails with 400 AlreadyEnrolled; otherwise exactly one enrollment row is
inserted. At count equal to max_participants the call fails BatchFull, and
at count equal to max_participants minus one it succeeds and brings the
count to capacity. -/
theorem enroll_check_order (db : DB) (u bid : Nat) :
    (findBatch db bid = none →
        enrollHandler db noEnrollFaults u bid = (.jsonError 404 "Batch not found", db))
    ∧ ∀ batch, findBatch db bid = some batch →
        (batch.maxParticipants ≤ enrollmentCount db bid →
            enrollHandler db noEnrollFaults u bid = (.jsonError 400 "Batch is full", db))
        ∧ (enrollmentCount db bid < batch.maxParticipants →
            hasEnrollment db u bid = true →
            enrollHandler db noEnrollFaults u bid = (.jsonError 400 "Already enrolled", db))
        ∧ (enrollmentCount db bid < batch.maxParticipants →
            hasEnrollment db u bid = false →
            (enrollHandler db noEnrollFaults u bid).1 = .jsonOk "Enrolled successfully"
            ∧ (enrollHandler db noEnrollFaults u bid).2.enrollments.length =
                db.enrollments.length + 1
            ∧ enrollmentCount (enrollHandler db noEnrollFaults u bid).2 bid =
                enrollmentCount db bid + 1
            ∧ hasEnrollment (enrollHandler db noEnrollFaults u bid).2 u bid = true)
        ∧ (enrollmentCount db bid = batch.maxParticipants →
            enrollHandler db noEnrollFaults u bid = (.jsonError 400 "Batch is full", db))
        ∧ (enrollmentCount db bid + 1 = batch.maxParticipants →
            hasEnrollment db u bid = false →
            enrollmentCount (enrollHandler db noEnrollFaults u bid).2 bid =
              batch.maxParticipants) := by
  constructor
  · intro hnone
    simp [enrollHandler, noEnrollFaults, hnone]
  · intro batch hsome
    have hmain : ∀ hlt : enrollmentCount db bid < batch.maxParticipants,
        hasEnrollment db u bid = false →
        enrollHandler db noEnrollFaults u bid =
          (.jsonOk "Enrolled successfully",
            { db with
                enrollments := db.enrollments ++ [⟨db.nextEnrollmentId, u, bid⟩],
                nextEnrollmentId := db.nextEnrollmentId + 1 }) := by
      intro hlt hne
      simp [enrollHandler, noEnrollFaults, hsome, Nat.not_le.mpr hlt, hne]
    refine ⟨?_, ?_, ?_, ?_, ?_⟩
    · intro hle
      simp [enrollHandler, noEnrollFaults, hsome, hle]
    · intro hlt he
      simp [enrollHandler, noEnrollFaults, hsome, Nat.not_le.mpr hlt, he]
    · intro hlt hne
      rw [hmain hlt hne]
      refine ⟨rfl, by simp, ?_, ?_⟩
      · simp [enrollmentCount, List.filter_append]
      · simp [hasEnrollment, List.any_append]
    · intro heq
      simp [enrollHandler, noEnrollFaults, hsome, heq.ge]
    · intro heq hne
      have hlt : enrollmentCount db bid < batch.maxParticipants := by omega
      rw [hmain hlt hne]
      simp [enrollmentCount, List.filter_append] at heq ⊢
      omega

/-- Witness for C1 at a concrete database: batch 2 has capacity 1 and no
enrollments, so enrolling succeeds and fills the batch to capacity. -/
theorem enroll_check_order_witness :
    (enrollHandler dbWithBatch noEnrollFaults 7 2).1 = .jsonOk "Enrolled successfully"
    ∧ enrollmentCount (enrollHandler dbWithBatch noEnrollFaults 7 2).2 2 =
        batchTiny.maxParticipants := by
  have h := (enroll_check_order dbWithBatch 7 2).2 batchTiny (by decide)
  exact ⟨(h.2.2.1 (by decide) (by decide)).1, h.2.2.2.2 (by decide) (by decide)⟩

theorem filter_eq_nil_of_any_false {α : Type} (p : α → Bool) (l : List α)
    (h : l.any p = false) : l.filter p = [] := by
  induction l with
  | nil => rfl
  | cons x xs ih =>
    simp only [List.any_cons, Bool.or_eq_false_iff] at h
    simp [List.filter_cons, h.1, ih h.2]

/-- At most one daily_reports row per (user, batch, date) key: the UNIQUE
constraint of the table. -/
def reportKeyUnique (db : DB) : Prop :=
  ∀ (u b : Nat) (d : String), (db.reports.filter (keyMatch u b d)).length ≤ 1

theorem reportKeyUnique_upsert (db : DB) (u b : Nat) (d tasks : String)
    (challenges : Option String) (hours : ℚ) (notes : Option String) (t : Nat)
    (h : reportKeyUnique db) :
    reportKeyUnique (upsertReport db u b d tasks challenges hours notes t) := by
  intro u' b' d'
  unfold upsertReport
  by_cases hany : db.reports.any (keyMatch u b d) = true
  · simp only [hany, if_true]
    rw [filter_map_comm]
    have hfun : (fun r => keyMatch u' b' d'
        (if keyMatch u b d r then applyUpdate tasks challenges hours notes t r
          else r)) = keyMatch u' b' d' := by
      funext r
      by_cases hk : keyMatch u b d r = true
      · simp [hk, keyMatch_applyUpdate]
      · simp [hk]
    rw [hfun, List.length_map]
    exact h u' b' d'
  · simp only [Bool.not_eq_true] at hany
    simp only [hany, Bool.false_eq_true, if_false]
    rw [List.filter_append, List.length_append]
    by_cases hk : keyMatch u' b' d'
        (⟨db.nextReportId, u, b, d, tasks, challenges, hours, notes, t, t⟩ : Report) = true
    · obtain ⟨h1', h2', h3'⟩ := keyMatch_iff.mp hk
      simp only at h1' h2' h3'
      subst h1'; subst h2'; subst h3'
      rw [filter_eq_nil_of_any_false _ _ hany]
      simp [List.filter_cons, hk]
    · simp only [Bool.not_eq_true] at hk
      simp only [List.filter_cons, hk, Bool.false_eq_true, if_false,
        List.filter_nil, List.length_nil]
      have := h u' b' d'
      omega

theorem upsert_enrollments (db : DB) (u b : Nat) (d tasks : String)
    (challenges : Option String) (hours : ℚ) (notes : Option String) (t : Nat) :
    (upsertReport db u b d tasks challenges hours notes t).enrollments =
      db.enrollments := by
  unfold upsertReport
  split <;> rfl

theorem enrollHandler_reports (db : DB) (f : EnrollFaults) (u bid : Nat) :
    (enrollHandler db f u bid).2.reports = db.reports := by
  unfold enrollHandler
  repeat' split
  all_goals rfl

theorem reportHandler_ok (db : DB) (u : Nat) (req : ReportRequest) (t : Nat)
    (hval : validReportRequest req = true)
    (he : hasEnrollment db u (req.batch_id.getD 0) = true) :
    reportHandler db noReportFaults u req t =
      (.jsonOk "Report submitted successfully",
        upsertReport db u (req.batch_id.getD 0) (req.report_date.getD "")
          (req.tasks_completed.getD "") req.challenges (req.hours_worked.getD 0)
          req.notes t) := by
  simp [reportHandler, noReportFaults, hval, he]

/-- C2: Submitting a second report for the same (user, batch, date) triple
leaves exactly one stored row for that triple, carrying the second
submission field values, a refreshed updated_at, and the original id and
created_at; moreover no report or enroll operation can ever produce two
rows for one triple (key uniqueness is preserved by every operation). -/
theorem report_upsert_single_row (db : DB) (u b : Nat) (d : String)
    (req1 req2 : ReportRequest) (t1 t2 : Nat)
    (h1 : validReportRequest req1 = true) (h2 : validReportRequest req2 = true)
    (hb1 : req1.batch_id = some b) (hb2 : req2.batch_id = some b)
    (hd1 : req1.report_date = some d) (hd2 : req2.report_date = some d)
    (he : hasEnrollment db u b = true)
    (h0 : db.reports.filter (keyMatch u b d) = []) :
    ((reportHandler (reportHandler db noReportFaults u req1 t1).2
        noReportFaults u req2 t2).2).reports.filter (keyMatch u b d) =
      [⟨db.nextReportId, u, b, d, req2.tasks_completed.getD "", req2.challenges,
        req2.hours_worked.getD 0, req2.notes, t1, t2⟩]
    ∧ (∀ (db' : DB) (f : ReportFaults) (u' : Nat) (req' : ReportRequest) (t' : Nat),
        reportKeyUnique db' → reportKeyUnique (reportHandler db' f u' req' t').2)
    ∧ (∀ (db' : DB) (f : EnrollFaults) (u' bid : Nat),
        reportKeyUnique db' → reportKeyUnique (enrollHandler db' f u' bid).2) := by
  refine ⟨?_, ?_, ?_⟩
  · have hany1 : db.reports.any (keyMatch u b d) = false := by
      cases hq : db.reports.any (keyMatch u b d) with
      | false => rfl
      | true =>
        obtain ⟨r, hr, hpr⟩ := List.any_eq_true.mp hq
        have hmem : r ∈ db.reports.filter (keyMatch u b d) :=
          List.mem_filter.mpr ⟨hr, hpr⟩
        rw [h0] at hmem
        cases hmem
    have he1 : hasEnrollment db u (req1.batch_id.getD 0) = true := by
      rw [hb1]; exact he
    have hdb1 : (reportHandler db noReportFaults u req1 t1).2 =
        { db with
            reports := db.reports ++
              [⟨db.nextReportId, u, b, d, req1.tasks_completed.getD "",
                req1.challenges, req1.hours_worked.getD 0, req1.notes, t1, t1⟩],
            nextReportId := db.nextReportId + 1 } := by
      rw [reportHandler_ok db u req1 t1 h1 he1]
      simp only [hb1, hd1, Option.getD_some]
      simp [upsertReport, hany1]
    rw [hdb1]
    have hkrow : keyMatch u b d
        (⟨db.nextReportId, u, b, d, req1.tasks_completed.getD "",
          req1.challenges, req1.hours_worked.getD 0, req1.notes, t1, t1⟩ : Report) = true := by
      simp [keyMatch]
    have he2 : hasEnrollment
        { db with
            reports := db.reports ++
              [⟨db.nextReportId, u, b, d, req1.tasks_completed.getD "",
                req1.challenges, req1.hours_worked.getD 0, req1.notes, t1, t1⟩],
            nextReportId := db.nextReportId + 1 } u (req2.batch_id.getD 0) = true := by
      rw [hb2]; exact he
    rw [reportHandler_ok _ u req2 t2 h2 he2]
    simp only [hb2, hd2, Option.getD_some]
    have hany2 : (db.reports ++
        [(⟨db.nextReportId, u, b, d, req1.tasks_completed.getD "",
          req1.challenges, req1.hours_worked.getD 0, req1.notes, t1, t1⟩ : Report)]).any
          (keyMatch u b d) = true := by
      rw [List.any_append, hany1]
      simp [hkrow]
    simp only [upsertReport, hany2, eq_self_iff_true, if_true]
    simp only [filter_map_comm]
    have hfun : (fun r => keyMatch u b d
        (if keyMatch u b d r then
            applyUpdate (req2.tasks_completed.getD "") req2.challenges
              (req2.hours_worked.getD 0) req2.notes t2 r
          else r)) = keyMatch u b d := by
      funext r
      by_cases hk : keyMatch u b d r = true
      · simp [hk, keyMatch_applyUpdate]
      · simp [hk]
    rw [hfun, List.filter_append, filter_eq_nil_of_any_false _ _ hany1]
    simp only [List.nil_append, List.filter_cons, hkrow, if_true,
      List.filter_nil, List.map_cons, List.map_nil]
    simp [applyUpdate]
  · intro db' f u' req' t' hun
    unfold reportHandler
    split
    · split
      · exact hun
      · split
        · exact hun
        · exact reportKeyUnique_upsert _ _ _ _ _ _ _ _ _ hun
    · exact hun
  · intro db' f u' bid hun
    intro u2 b2 d2
    rw [enrollHandler_reports]
    exact hun u2 b2 d2

/-- Witness for C2: two concrete submissions for the same key leave exactly
the one row with the second submission fields, created_at 10, updated_at 20. -/
theorem report_upsert_single_row_witness :
    ((reportHandler (reportHandler dbEnrolled noReportFaults 1 reqA 10).2
        noReportFaults 1 reqB 20).2).reports.filter (keyMatch 1 1 "2026-01-05") =
      [⟨1, 1, 1, "2026-01-05", "taskB", none, 7, none, 10, 20⟩] :=
  (report_upsert_single_row dbEnrolled 1 1 "2026-01-05" reqA reqB 10 20
    (by decide) (by decide) rfl rfl rfl rfl (by decide) (by decide)).1

def reqMissingHours : ReportRequest :=
  ⟨some 1, some "2026-01-07", some "t", none, none, none⟩

/-- Every stored report belongs to a (user, batch) pair that has an
enrollment row. -/
def reportsEnrolled (db : DB) : Prop :=
  ∀ r ∈ db.reports, hasEnrollment db r.userId r.batchId = true

theorem reportsEnrolled_upsert (db : DB) (u b : Nat) (d tasks : String)
    (challenges : Option String) (hours : ℚ) (notes : Option String) (t : Nat)
    (h : reportsEnrolled db) (he : hasEnrollment db u b = true) :
    reportsEnrolled (upsertReport db u b d tasks challenges hours notes t) := by
  intro r hr
  unfold upsertReport at hr ⊢
  by_cases hany : db.reports.any (keyMatch u b d) = true
  · simp only [hany, if_true] at hr ⊢
    obtain ⟨r0, hr0, hEq⟩ := List.mem_map.mp hr
    by_cases hk : keyMatch u b d r0 = true
    · rw [← hEq]
      simp only [hk, if_true, applyUpdate]
      exact h r0 hr0
    · rw [← hEq]
      simp only [hk, Bool.false_eq_true, if_false]
      exact h r0 hr0
  · simp only [Bool.not_eq_true] at hany
    simp only [hany, Bool.false_eq_true, if_false] at hr ⊢
    rcases List.mem_append.mp hr with hmem | hmem
    · exact h r hmem
    · simp only [List.mem_singleton] at hmem
      subst hmem
      exact he

theorem reportsEnrolled_reportHandler (db : DB) (f : ReportFaults) (u : Nat)
    (req : ReportRequest) (t : Nat) (h : reportsEnrolled db) :
    reportsEnrolled (reportHandler db f u req t).2 := by
  by_cases hval : validReportRequest req = true
  · by_cases hg : f.enrollmentQueryFails = true ∨
        hasEnrollment db u (req.batch_id.getD 0) = false
    · simp only [reportHandler, hval, if_true, hg]
      exact h
    · by_cases hu : f.upsertFails = true
      · simp only [reportHandler, hval, if_true, hg, if_false, hu]
        exact h
      · have he : hasEnrollment db u (req.batch_id.getD 0) = true := by
          push_neg at hg
          simpa using hg.2
        simp only [reportHandler, hval, if_true, hg, if_false, hu]
        exact reportsEnrolled_upsert db u _ _ _ _ _ _ _ h he
  · simp only [reportHandler, hval, if_false]
    exact h

theorem hasEnrollment_enrollHandler (db : DB) (f : EnrollFaults) (u bid a c : Nat)
    (h : hasEnrollment db a c = true) :
    hasEnrollment (enrollHandler db f u bid).2 a c = true := by
  unfold enrollHandler
  repeat' split
  all_goals try exact h
  simp only [hasEnrollment, List.any_append]
  simp only [hasEnrollment] at h
  rw [h]
  rfl

theorem reportsEnrolled_enrollHandler (db : DB) (f : EnrollFaults) (u bid : Nat)
    (h : reportsEnrolled db) : reportsEnrolled (enrollHandler db f u bid).2 := by
  intro r hr
  rw [enrollHandler_reports] at hr
  exact hasEnrollment_enrollHandler db f u bid _ _ (h r hr)

/-- C3 counterexample: a submit-report request with the tasks field absent,
sent by a user who is not enrolled in the (existing) target batch, fails
with the 400 ValidationError, not with the 403 NotEnrolled error the claim
requires for every not-enrolled request. -/
theorem submit_not_enrolled_counterexample :
    hasEnrollment dbWithBatch 1 1 = false
    ∧ reqMissingTasks.batch_id = some 1
    ∧ reportHandler dbWithBatch noReportFaults 1 reqMissingTasks 0 =
        (.jsonError 400 "Required fields missing", dbWithBatch) :=
  ⟨by decide, rfl, by decide⟩

/-- C3 amended: every submit-report request that passes field validation,
made by a user with no Enrollment row for the target batch, fails with
NotEnrolled (403) and leaves the database unchanged; moreover every stored
report always belongs to an enrolled (user, batch) pair — the invariant is
preserved by the report and enroll operations. -/
theorem submit_requires_enrollment (db : DB) (u b : Nat) (req : ReportRequest)
    (t : Nat) (hval : validReportRequest req = true)
    (hb : req.batch_id = some b) (hne : hasEnrollment db u b = false) :
    reportHandler db noReportFaults u req t =
      (.jsonError 403 "Not enrolled in this batch", db)
    ∧ (∀ (db' : DB) (f : ReportFaults) (u' : Nat) (req' : ReportRequest) (t' : Nat),
        reportsEnrolled db' → reportsEnrolled (reportHandler db' f u' req' t').2)
    ∧ (∀ (db' : DB) (f : EnrollFaults) (u' bid : Nat),
        reportsEnrolled db' → reportsEnrolled (enrollHandler db' f u' bid).2) := by
  refine ⟨?_, ?_, ?_⟩
  · simp [reportHandler, noReportFaults, hval, hb, hne]
  · intro db' f u' req' t' h
    exact reportsEnrolled_reportHandler db' f u' req' t' h
  · intro db' f u' bid h
    exact reportsEnrolled_enrollHandler db' f u' bid h

/-- Witness for C3: a valid request by a non-enrolled user is rejected 403. -/
theorem submit_requires_enrollment_witness :
    reportHandler dbWithBatch noReportFaults 1 reqA 0 =
      (.jsonError 403 "Not enrolled in this batch", dbWithBatch) :=
  (submit_requires_enrollment dbWithBatch 1 1 reqA 0 (by decide) rfl (by decide)).1

/-- C4 counterexample: the validation only tests truthiness, so a request
with hours_worked equal to minus five passes validation, succeeds, and the
negative value is stored in the report ledger. -/
theorem negative_hours_accepted_counterexample :
    (reportHandler dbEnrolled noReportFaults 1 reqNegHours 0).1 =
      .jsonOk "Report submitted successfully"
    ∧ (reportHandler dbEnrolled noReportFaults 1 reqNegHours 0).2.reports =
        [⟨1, 1, 1, "2026-01-06", "work", none, -5, none, 0, 0⟩] :=
  ⟨by decide, by decide⟩

/-- C4 amended: a request whose tasks or hours field is absent fails with
the 400 ValidationError, but a request with a negative hours value is
accepted into the report ledger: the code has no non-negativity check. -/
theorem hours_validation_amended :
    (∀ (db : DB) (u : Nat) (req : ReportRequest) (t : Nat),
        req.tasks_completed = none ∨ req.hours_worked = none →
        reportHandler db noReportFaults u req t =
          (.jsonError 400 "Required fields missing", db))
    ∧ (reportHandler dbEnrolled noReportFaults 1 reqNegHours 0).2.reports.any
        (fun r => decide (r.hoursWorked < 0)) = true := by
  constructor
  · intro db u req t h
    have hval : validReportRequest req = false := by
      rcases h with h | h <;> simp [validReportRequest, h, truthyStr, truthyRat]
    simp [reportHandler, hval]
  · decide

/-- Witness for C4: a request with the hours field absent is rejected 400. -/
theorem hours_validation_witness :
    reportHandler dbWithBatch noReportFaults 1 reqMissingHours 0 =
      (.jsonError 400 "Required fields missing", dbWithBatch) :=
  hours_validation_amended.1 dbWithBatch 1 reqMissingHours 0 (Or.inr rfl)

/-- No stored report row carries zero hours worked. -/
def noZeroHourReports (db : DB) : Prop :=
  ∀ r ∈ db.reports, r.hoursWorked ≠ 0

theorem truthyRat_getD (o : Option ℚ) (h : truthyRat o = true) : o.getD 0 ≠ 0 := by
  cases o with
  | none => simp [truthyRat] at h
  | some q => simpa [truthyRat] using h

theorem noZeroHours_upsert (db : DB) (u b : Nat) (d tasks : String)
    (challenges : Option String) (hours : ℚ) (notes : Option String) (t : Nat)
    (h : noZeroHourReports db) (hh : hours ≠ 0) :
    noZeroHourReports (upsertReport db u b d tasks challenges hours notes t) := by
  intro r hr
  unfold upsertReport at hr
  by_cases hany : db.reports.any (keyMatch u b d) = true
  · simp only [hany, if_true] at hr
    obtain ⟨r0, hr0, hEq⟩ := List.mem_map.mp hr
    by_cases hk : keyMatch u b d r0 = true
    · rw [← hEq]
      simp only [hk, if_true, applyUpdate]
      exact hh
    · rw [← hEq]
      simp only [hk, Bool.false_eq_true, if_false]
      exact h r0 hr0
  · simp only [Bool.not_eq_true] at hany
    simp only [hany, Bool.false_eq_true, if_false] at hr
    rcases List.mem_append.mp hr with hmem | hmem
    · exact h r hmem
    · simp only [List.mem_singleton] at hmem
      subst hmem
      exact hh

/-- C10: a submit-report request whose hours_worked field is present and
equal to 0 is rejected with the missing-required-fields ValidationError,
because the truthiness check treats 0 as absent; consequently a report with
zero hours worked can never be stored. -/
theorem zero_hours_rejected :
    (∀ (db : DB) (u : Nat) (req : ReportRequest) (t : Nat),
        req.hours_worked = some 0 →
        reportHandler db noReportFaults u req t =
          (.jsonError 400 "Required fields missing", db))
    ∧ (∀ (db : DB) (f : ReportFaults) (u : Nat) (req : ReportRequest) (t : Nat),
        noZeroHourReports db → noZeroHourReports (reportHandler db f u req t).2) := by
  constructor
  · intro db u req t h
    have hval : validReportRequest req = false := by
      simp [validReportRequest, h, truthyRat]
    simp [reportHandler, hval]
  · intro db f u req t h
    by_cases hval : validReportRequest req = true
    · by_cases hg : f.enrollmentQueryFails = true ∨
          hasEnrollment db u (req.batch_id.getD 0) = false
      · simp only [reportHandler, hval, if_true, hg]
        exact h
      · by_cases hu : f.upsertFails = true
        · simp only [reportHandler, hval, if_true, hg, if_false, hu]
          exact h
        · simp only [reportHandler, hval, if_true, hg, if_false, hu]
          have hhours : req.hours_worked.getD 0 ≠ 0 := by
            apply truthyRat_getD
            simp only [validReportRequest, Bool.and_eq_true] at hval
            exact hval.2
          exact noZeroHours_upsert db u _ _ _ _ _ _ _ h hhours
    · simp only [reportHandler, hval, if_false]
      exact h

/-- Witness for C10: the concrete zero-hours request is rejected 400. -/
theorem zero_hours_rejected_witness :
    reportHandler dbEnrolled noReportFaults 1 reqZeroHours 0 =
      (.jsonError 400 "Required fields missing", dbEnrolled) :=
  zero_hours_rejected.1 dbEnrolled 1 reqZeroHours 0 rfl

theorem mem_insertSorted (r a : Report) (l : List Report) :
    a ∈ insertSorted r l ↔ a = r ∨ a ∈ l := by
  induction l with
  | nil => simp [insertSorted]
  | cons x xs ih =>
    unfold insertSorted
    by_cases h : reportBefore r x = true
    · simp [h]
    · simp [h, ih]
      tauto

theorem mem_sortReports (a : Report) (l : List Report) :
    a ∈ sortReports l ↔ a ∈ l := by
  induction l with
  | nil => simp [sortReports]
  | cons x xs ih => simp [sortReports, mem_insertSorted, ih]

/-- C5: a student caller of the reports query only ever receives their own
report rows, and the result is identical for any two values of the supplied
user_id filter: the server-side clause overrides the caller-supplied one. -/
theorem student_report_isolation (db : DB) (caller : Caller) (q1 q2 : ReportQuery)
    (hrole : caller.role = "student")
    (hb : q1.batch_id = q2.batch_id) (hs : q1.start_date = q2.start_date)
    (he : q1.end_date = q2.end_date) (hl : q1.limit = q2.limit) :
    queryReports db caller q1 = queryReports db caller q2
    ∧ ∀ r ∈ queryReports db caller q1, r.userId = caller.id := by
  have hmatch : matchesQuery caller q1 = matchesQuery caller q2 := by
    funext r
    simp [matchesQuery, hrole, hb, hs, he]
  constructor
  · unfold queryReports
    rw [hmatch, hl]
  · intro r hr
    unfold queryReports at hr
    have hr2 := List.take_subset _ _ hr
    rw [mem_sortReports] at hr2
    have hpred := (List.mem_filter.mp hr2).2
    simp only [Bool.and_eq_true] at hpred
    have hq := hpred.2
    simp only [matchesQuery, Bool.and_eq_true] at hq
    have hown := hq.1.1.1.1
    rw [hrole] at hown
    simp only [bne_self_eq_false, Bool.false_or, beq_iff_eq] at hown
    exact hown

/-- Witness for C5: a concrete student caller and two queries differing only
in the user_id filter produce the same result. -/
theorem student_report_isolation_witness :
    queryReports dbEnrolled ⟨1, "student"⟩ ⟨none, some 2, none, none, 100⟩ =
      queryReports dbEnrolled ⟨1, "student"⟩ ⟨none, none, none, none, 100⟩ :=
  (student_report_isolation dbEnrolled ⟨1, "student"⟩
    ⟨none, some 2, none, none, 100⟩ ⟨none, none, none, none, 100⟩
    rfl rfl rfl rfl rfl).1

/-- C6 counterexample: with the concrete database holding batch 1, a
storage failure of the enrollment-count query makes the enroll handler
throw inside the callback (the source never checks that error), so no JSON
error body is produced for that storage failure. -/
theorem enroll_count_failure_counterexample :
    (enrollHandler dbWithBatch ⟨false, true, false⟩ 1 1).1 = .crash
    ∧ ∀ (s : Nat) (m : String),
        (enrollHandler dbWithBatch ⟨false, true, false⟩ 1 1).1 ≠ .jsonError s m := by
  have h0 : (enrollHandler dbWithBatch ⟨false, true, false⟩ 1 1).1 = .crash := by
    decide
  refine ⟨h0, ?_⟩
  intro s m h
  rw [h0] at h
  exact HandlerOutcome.noConfusion h

/-- C6 amended: in the submit-report handler every storage failure is
caught and surfaced immediately as a JSON error body (a failed enrollment
check query is conflated into the 403 NotEnrolled response, a failed upsert
into 500), and in the enroll handler the batch query failure is caught as
404; only the enrollment-count query failure escapes uncaught. -/
theorem storage_failure_handling_amended :
    (∀ (db : DB) (f : ReportFaults) (u : Nat) (req : ReportRequest) (t : Nat),
        (reportHandler db f u req t).1 ≠ .crash)
    ∧ (∀ (db : DB) (f : EnrollFaults) (u bid : Nat),
        f.countQueryFails = false → (enrollHandler db f u bid).1 ≠ .crash)
    ∧ (∀ (db : DB) (f : EnrollFaults) (u bid : Nat),
        f.batchQueryFails = true →
        enrollHandler db f u bid = (.jsonError 404 "Batch not found", db))
    ∧ (∀ (db : DB) (f : ReportFaults) (u : Nat) (req : ReportRequest) (t : Nat),
        validReportRequest req = true → f.enrollmentQueryFails = true →
        reportHandler db f u req t = (.jsonError 403 "Not enrolled in this batch", db))
    ∧ (∀ (db : DB) (f : ReportFaults) (u : Nat) (req : ReportRequest) (t : Nat),
        validReportRequest req = true → f.enrollmentQueryFails = false →
        hasEnrollment db u (req.batch_id.getD 0) = true → f.upsertFails = true →
        reportHandler db f u req t = (.jsonError 500 "Failed to submit report", db)) := by
  refine ⟨?_, ?_, ?_, ?_, ?_⟩
  · intro db f u req t
    unfold reportHandler
    repeat' split
    all_goals simp
  · intro db f u bid hc
    unfold enrollHandler
    repeat' split
    all_goals simp_all
  · intro db f u bid h
    simp [enrollHandler, h]
  · intro db f u req t hval h
    simp [reportHandler, hval, h]
  · intro db f u req t hval h1 h2 h3
    simp [reportHandler, hval, h1, h2, h3]

/-- Witness for C6: with no fault injected the enroll handler never
crashes on the concrete database. -/
theorem storage_failure_handling_witness :
    (enrollHandler dbWithBatch noEnrollFaults 1 1).1 ≠ .crash :=
  storage_failure_handling_amended.2.1 dbWithBatch noEnrollFaults 1 1 rfl

/-- C7: the completion prediction always lies in the set 95, 80, 60, 40,
20, and the threshold selection reproduces the reference table of the
specification on each tabulated (reports_count, avg_hours) pair. -/
theorem completion_prediction_table :
    (∀ (db : DB) (u b : Nat), predictCompletion db u b ∈ [95, 80, 60, 40, 20])
    ∧ predictCompletionRate 16 (some 6.5) = 95
    ∧ predictCompletionRate 12 (some 5.2) = 80
    ∧ predictCompletionRate 7 (some 4.1) = 60
    ∧ predictCompletionRate 2 (some 3) = 40
    ∧ (∀ avg : Option ℚ, predictCompletionRate 0 avg = 20) := by
  refine ⟨?_, ?_, ?_, ?_, ?_, ?_⟩
  · intro db u b
    unfold predictCompletion predictCompletionRate
    repeat' split
    all_goals simp
  · norm_num [predictCompletionRate, nullGe]
  · norm_num [predictCompletionRate, nullGe]
  · norm_num [predictCompletionRate, nullGe]
  · norm_num [predictCompletionRate, nullGe]
  · intro avg
    simp [predictCompletionRate]

theorem engagementLevel_spec (n : Nat) :
    (15 ≤ n → engagementLevel n = "High")
    ∧ (10 ≤ n → n < 15 → engagementLevel n = "Medium")
    ∧ (n < 10 → engagementLevel n = "Low")
    ∧ (needsAttentionFlag n = true ↔ n < 5) := by
  unfold engagementLevel needsAttentionFlag
  refine ⟨?_, ?_, ?_, ?_⟩
  · intro h
    rw [if_pos h]
  · intro h1 h2
    rw [if_neg (by omega), if_pos h1]
  · intro h
    rw [if_neg (by omega), if_neg (by omega)]
  · simp

/-- C8: in every class-insights result the engagement tier is High at 15 or
more reports, Medium from 10 to 14, and Low below 10, and needsAttention
holds exactly below 5 reports; the boundary instances 15, 14, 9 and 4
behave as the specification tabulates. -/
theorem class_insights_engagement :
    (∀ (db : DB) (bid : Nat) (s : StudentInsight), s ∈ classInsights db bid →
        ((15 ≤ s.totalReports → s.engagementLevel = "High")
        ∧ (10 ≤ s.totalReports → s.totalReports < 15 → s.engagementLevel = "Medium")
        ∧ (s.totalReports < 10 → s.engagementLevel = "Low")
        ∧ (s.needsAttention = true ↔ s.totalReports < 5)))
    ∧ engagementLevel 15 = "High" ∧ engagementLevel 14 = "Medium"
    ∧ engagementLevel 9 = "Low" ∧ needsAttentionFlag 9 = false
    ∧ engagementLevel 4 = "Low" ∧ needsAttentionFlag 4 = true := by
  refine ⟨?_, rfl, rfl, rfl, rfl, rfl, rfl⟩
  intro db bid s hs
  obtain ⟨u0, hu0, hEq⟩ := List.mem_map.mp hs
  rw [← hEq]
  exact engagementLevel_spec _

/-- Witness for C8: the single student of the concrete database has zero
reports, hence tier Low and needsAttention. -/
theorem class_insights_engagement_witness :
    (StudentInsight.mk 1 0 "Low" true).engagementLevel = "Low"
    ∧ ((StudentInsight.mk 1 0 "Low" true).needsAttention = true ↔
        (StudentInsight.mk 1 0 "Low" true).totalReports < 5) := by
  have h := class_insights_engagement.1 dbEnrolled 1 ⟨1, 0, "Low", true⟩ (by decide)
  exact ⟨h.2.2.1 (by decide), h.2.2.2⟩

/-- C9 counterexample: with one report and a three-day inclusive span the
code returns 33 after toFixed rounding, while the claimed exact formula
min(1/3 times 100, 100) equals 100/3, which 33 is not. -/
theorem consistency_formula_counterexample :
    calculateConsistency 1 (some 0) (some 2) = 33
    ∧ specConsistency 1 0 2 = 100 / 3
    ∧ ((calculateConsistency 1 (some 0) (some 2) : ℚ) ≠ specConsistency 1 0 2) := by
  refine ⟨?_, ?_, ?_⟩
  · norm_num [calculateConsistency, min_def]
  · norm_num [specConsistency, specDaysSpan, min_def]
  · norm_num [calculateConsistency, specConsistency, specDaysSpan, min_def]

/-- C9 amended: the consistency metric equals the specification formula
min(total / days_span * 100, 100) rounded half up to the nearest integer
(the source applies toFixed with zero digits), days_span being the
inclusive day span; the reference instance of five reports over a ten-day
span yields exactly 50 under both readings. -/
theorem consistency_rounding_amended :
    (∀ (total f l : Nat), f ≤ l →
        calculateConsistency total (some f) (some l) =
          ⌊specConsistency total f l + 1 / 2⌋)
    ∧ calculateConsistency 5 (some 0) (some 9) = 50
    ∧ specConsistency 5 0 9 = 50 := by
  refine ⟨?_, ?_, ?_⟩
  · intro total f l hfl
    simp only [calculateConsistency, specConsistency, specDaysSpan]
    have h1 : (((l : ℤ) - (f : ℤ) + 1 : ℤ) : ℚ) = (l : ℚ) - (f : ℚ) + 1 := by
      push_cast
      ring
    have h2 : ((l - f + 1 : ℕ) : ℚ) = (l : ℚ) - (f : ℚ) + 1 := by
      push_cast [Nat.cast_sub hfl]
      ring
    rw [h1, h2]
  · norm_num [calculateConsistency, min_def]
  · norm_num [specConsistency, specDaysSpan, min_def]

/-- Witness for C9: the amended equation instantiated at the reference
input of the specification. -/
theorem consistency_rounding_witness :
    calculateConsistency 5 (some 0) (some 9) =
      ⌊specConsistency 5 0 9 + 1 / 2⌋ :=
  consistency_rounding_amended.1 5 0 9 (by decide)

end TrainingPortal
